import Mathlib

/-!
Verification of the selection/dispatch policy and refinement decorator of
the sparse Cholesky subsystem (internal/ceres/sparse_cholesky.cc).

The backends, the iterative refiner and the matrix/vector types are external
collaborators: they are modelled abstractly as operation records over
arbitrary state types, so every theorem below quantifies over all possible
collaborator behaviours.  The dispatch code itself (SparseCholesky::Create,
SparseCholesky::FactorAndSolve, RefinedSparseCholesky) is translated
directly from the source.
-/

set_option autoImplicit false

namespace Ceres

universe u v w x y

/-- Termination status of every factor/solve call, a three-valued outcome
(Success, Failure, Fatal) together with an advisory message produced by the
callee. -/
inductive LinearSolverTerminationType where
  | LINEAR_SOLVER_SUCCESS
  | LINEAR_SOLVER_FAILURE
  | LINEAR_SOLVER_FATAL_ERROR
deriving DecidableEq, Repr

open LinearSolverTerminationType

/-- Result of a Factorize call: the updated callee state, the termination
status, and the diagnostic message written through the message pointer. -/
structure FactorizeResult (σ : Type u) where
  state : σ
  status : LinearSolverTerminationType
  message : String
deriving DecidableEq

/-- Result of a Solve call: updated callee state, the contents written into
the solution buffer, the termination status and the diagnostic message. -/
structure SolveResult (σ : Type u) (S : Type v) where
  state : σ
  solution : S
  status : LinearSolverTerminationType
  message : String
deriving DecidableEq

/-- Virtual interface of a concrete SparseCholesky backend: Factorize and
Solve, as pure state transformers over an abstract backend state `σ`,
matrix type `M`, right-hand-side type `R` and solution-buffer type `S`. -/
structure SolverOps (σ : Type u) (M : Type v) (R : Type w) (S : Type x) where
  factorize : σ → M → FactorizeResult σ
  solve : σ → R → S → SolveResult σ S

/-- SparseCholesky::FactorAndSolve from the source: call Factorize; if it
returned LINEAR_SOLVER_SUCCESS call Solve and return its result, otherwise
return the Factorize result with the solution buffer untouched. -/
def SparseCholesky.FactorAndSolve {σ : Type u} {M : Type v} {R : Type w}
    {S : Type x} (ops : SolverOps σ M R S) (st : σ) (lhs : M)
    (rhs : R) (solution : S) : SolveResult σ S :=
  let fr := ops.factorize st lhs
  if fr.status = LINEAR_SOLVER_SUCCESS then
    ops.solve fr.state rhs solution
  else
    { state := fr.state, solution := solution, status := fr.status,
      message := fr.message }

/-- A backend state instrumented with call counters, to make the number of
Factorize and Solve invocations observable. -/
structure Counters (σ : Type u) where
  base : σ
  factorizeCalls : Nat
  solveCalls : Nat
deriving DecidableEq

/-- Wrap a backend so that every Factorize and Solve call is counted while
the underlying behaviour is unchanged. -/
def instrument {σ : Type u} {M : Type v} {R : Type w} {S : Type x}
    (ops : SolverOps σ M R S) : SolverOps (Counters σ) M R S where
  factorize st m :=
    let r := ops.factorize st.base m
    { state := { base := r.state, factorizeCalls := st.factorizeCalls + 1,
                 solveCalls := st.solveCalls },
      status := r.status, message := r.message }
  solve st r s :=
    let q := ops.solve st.base r s
    { state := { base := q.state, factorizeCalls := st.factorizeCalls,
                 solveCalls := st.solveCalls + 1 },
      solution := q.solution, status := q.status, message := q.message }

/-- Interface of the iterative refiner collaborator as the decorator calls
it: Refine(matrix, rhs, solver, solution) may update the refiner state, the
wrapped solver it was handed a pointer to, and the solution buffer. -/
structure RefinerOps (ρ : Type u) (M : Type v) (R : Type w) (S : Type x)
    (σ : Type y) where
  refine : ρ → M → R → σ → S → ρ × σ × S

/-- A refiner instrumented with a call counter. -/
def instrumentRefiner {ρ : Type u} {M : Type v} {R : Type w} {S : Type x}
    {σ : Type y} (rops : RefinerOps ρ M R S σ) :
    RefinerOps (ρ × Nat) M R S σ where
  refine p m rhs sv sol :=
    let q := rops.refine p.1 m rhs sv sol
    ((q.1, p.2 + 1), q.2.1, q.2.2)

/-- State of a RefinedSparseCholesky instance: the exclusively owned wrapped
backend state, the exclusively owned refiner state, and the raw pointer
lhs member, null (`none`) until the first Factorize call rebinds it. -/
structure RefinedSparseCholesky (σ : Type u) (ρ : Type v) (M : Type w) where
  sparse_cholesky : σ
  iterative_refiner : ρ
  lhs : Option M
deriving DecidableEq

/-- RefinedSparseCholesky::Factorize from the source: store the matrix
pointer into the lhs member (unconditionally, before delegating), then
delegate to the wrapped Factorize and return its status. -/
def RefinedSparseCholesky.Factorize {σ : Type u} {ρ : Type v} {M : Type w}
    {R : Type x} {S : Type y} (ops : SolverOps σ M R S)
    (self : RefinedSparseCholesky σ ρ M) (lhs : M) :
    RefinedSparseCholesky σ ρ M × LinearSolverTerminationType × String :=
  let self := { self with lhs := some lhs }
  let fr := ops.factorize self.sparse_cholesky lhs
  ({ self with sparse_cholesky := fr.state }, fr.status, fr.message)

/-- RefinedSparseCholesky::Solve from the source: CHECK that the lhs member
is not null (a fatal assertion, modelled as `none`), delegate to the wrapped
Solve; on any non-Success status return it at once; on Success invoke the
refiner on the stored matrix, the rhs, the wrapped backend and the solution
buffer, then return LINEAR_SOLVER_SUCCESS unconditionally. -/
def RefinedSparseCholesky.Solve {σ : Type u} {ρ : Type v} {M : Type w}
    {R : Type x} {S : Type y} (ops : SolverOps σ M R S)
    (rops : RefinerOps ρ M R S σ) (self : RefinedSparseCholesky σ ρ M)
    (rhs : R) (solution : S) :
    Option (RefinedSparseCholesky σ ρ M × S × LinearSolverTerminationType
      × String) :=
  match self.lhs with
  | none => none
  | some m =>
    let sr := ops.solve self.sparse_cholesky rhs solution
    if sr.status ≠ LINEAR_SOLVER_SUCCESS then
      some ({ self with sparse_cholesky := sr.state }, sr.solution,
        sr.status, sr.message)
    else
      let q := rops.refine self.iterative_refiner m rhs sr.state sr.solution
      some ({ sparse_cholesky := q.2.1, iterative_refiner := q.1,
              lhs := self.lhs }, q.2.2, LINEAR_SOLVER_SUCCESS, sr.message)

/-- Modelled from the spec: the IterativeRefiner collaborator (its class
lives in iterative_refiner.h/cc, which is not part of this repository
snapshot).  It is constructed from a maximum-iteration bound and exposes
Refine, which performs at most the bound number of correction passes on the
solution buffer and never signals failure.  The number of passes the
refiner would choose on its own and the effect of one correction pass are
left abstract. -/
structure IterativeRefiner (M : Type u) (R : Type v) (S : Type w)
    (σ : Type x) where
  max_num_iterations : Nat
  chosen_passes : Nat
  pass : M → R → σ → S → S

/-- Modelled from the spec: Refine applies the correction pass at most
max_num_iterations times (the refiner may stop earlier, after
chosen_passes, but never exceeds its bound), improving the solution in
place and leaving everything else unchanged. -/
def IterativeRefiner.Refine {M : Type u} {R : Type v} {S : Type w}
    {σ : Type x} (r : IterativeRefiner M R S σ) (m : M) (rhs : R) (solver : σ)
    (solution : S) : S :=
  Nat.iterate (r.pass m rhs solver) (min r.chosen_passes r.max_num_iterations)
    solution

/-- View an IterativeRefiner through the refiner interface the decorator
calls: Refine updates only the solution buffer. -/
def IterativeRefiner.ops (M : Type u) (R : Type v) (S : Type w) (σ : Type x) :
    RefinerOps (IterativeRefiner M R S σ) M R S σ where
  refine r m rhs sv sol := (r, sv, r.Refine m rhs sv sol)

/-- The closed enumeration of sparse linear algebra libraries the factory
dispatches on (NO_SPARSE falls into the default branch). -/
inductive SparseLinearAlgebraLibraryType where
  | SUITE_SPARSE
  | CX_SPARSE
  | EIGEN_SPARSE
  | ACCELERATE_SPARSE
  | NO_SPARSE
deriving DecidableEq, Repr

/-- Ordering policy passed to every backend constructor. -/
inductive OrderingType where
  | NATURAL
  | AMD
deriving DecidableEq, Repr

/-- Preprocessor configuration of the build: which library bindings were
compiled in.  Field polarity mirrors the guards in the source
(ifndef CERES_NO_SUITESPARSE, ifdef CERES_USE_EIGEN_SPARSE,
ifndef CERES_NO_CXSPARSE, ifndef CERES_NO_ACCELERATE_SPARSE). -/
structure BuildConfig where
  no_suitesparse : Bool
  use_eigen_sparse : Bool
  no_cxsparse : Bool
  no_accelerate_sparse : Bool
deriving DecidableEq, Repr

/-- The fields of LinearSolver::Options consumed by SparseCholesky::Create. -/
structure Options where
  sparse_linear_algebra_library_type : SparseLinearAlgebraLibraryType
  use_postordering : Bool
  use_mixed_precision_solves : Bool
  max_num_refinement_iterations : Int
deriving DecidableEq, Repr

/-- The concrete backend classes the factory can instantiate, one standard
and one reduced-precision variant per library. -/
inductive BackendKind where
  | SuiteSparseCholesky
  | FloatSuiteSparseCholesky
  | EigenSparseCholesky
  | FloatEigenSparseCholesky
  | CXSparseCholesky
  | FloatCXSparseCholesky
  | AppleAccelerateCholeskyDouble
  | AppleAccelerateCholeskyFloat
deriving DecidableEq, Repr

/-- A constructed backend: its class and the ordering policy passed to its
constructor. -/
structure BackendInstance where
  kind : BackendKind
  ordering : OrderingType
deriving DecidableEq, Repr

/-- What the factory returns on success: either the bare backend, or the
backend wrapped in a RefinedSparseCholesky whose IterativeRefiner was
constructed with the recorded iteration bound. -/
inductive CreatedSolver where
  | plain : BackendInstance → CreatedSolver
  | refined : BackendInstance → Int → CreatedSolver
deriving DecidableEq, Repr

/-- SparseCholesky::Create from the source.  LOG(FATAL) aborts the process;
it is modelled as `Except.error` carrying the fatal message, so no solver
value exists on any fatal path.  The switch selects the library; inside each
compiled-in case the mixed-precision flag picks the variant; afterwards a
positive max_num_refinement_iterations wraps the backend in the refined
decorator. -/
def SparseCholesky.Create (build : BuildConfig) (options : Options) :
    Except String CreatedSolver :=
  let ordering_type : OrderingType :=
    if options.use_postordering then .AMD else .NATURAL
  let backend : Except String BackendInstance :=
    match options.sparse_linear_algebra_library_type with
    | .SUITE_SPARSE =>
      if build.no_suitesparse then
        .error "Ceres was compiled without support for SuiteSparse."
      else if options.use_mixed_precision_solves then
        .ok { kind := .FloatSuiteSparseCholesky, ordering := ordering_type }
      else
        .ok { kind := .SuiteSparseCholesky, ordering := ordering_type }
    | .EIGEN_SPARSE =>
      if !build.use_eigen_sparse then
        .error "Ceres was compiled without support for Eigen sparse Cholesky factorization routines."
      else if options.use_mixed_precision_solves then
        .ok { kind := .FloatEigenSparseCholesky, ordering := ordering_type }
      else
        .ok { kind := .EigenSparseCholesky, ordering := ordering_type }
    | .CX_SPARSE =>
      if build.no_cxsparse then
        .error "Ceres was compiled without support for CXSparse."
      else if options.use_mixed_precision_solves then
        .ok { kind := .FloatCXSparseCholesky, ordering := ordering_type }
      else
        .ok { kind := .CXSparseCholesky, ordering := ordering_type }
    | .ACCELERATE_SPARSE =>
      if build.no_accelerate_sparse then
        .error "Ceres was compiled without support for Apple Accelerate framework solvers."
      else if options.use_mixed_precision_solves then
        .ok { kind := .AppleAccelerateCholeskyFloat, ordering := ordering_type }
      else
        .ok { kind := .AppleAccelerateCholeskyDouble, ordering := ordering_type }
    | .NO_SPARSE =>
      .error "Unknown sparse linear algebra library type : NO_SPARSE"
  match backend with
  | .error e => .error e
  | .ok b =>
    if options.max_num_refinement_iterations > 0 then
      .ok (.refined b options.max_num_refinement_iterations)
    else
      .ok (.plain b)

/-- Whether the requested library binding was compiled into the build
(NO_SPARSE is never a valid, compiled-in choice). -/
def BuildConfig.compiled (b : BuildConfig) :
    SparseLinearAlgebraLibraryType → Bool
  | .SUITE_SPARSE => !b.no_suitesparse
  | .EIGEN_SPARSE => b.use_eigen_sparse
  | .CX_SPARSE => !b.no_cxsparse
  | .ACCELERATE_SPARSE => !b.no_accelerate_sparse
  | .NO_SPARSE => false

/-- The pair (standard variant, reduced-precision variant) each recognized
library maps to. -/
def libraryVariants :
    SparseLinearAlgebraLibraryType → Option (BackendKind × BackendKind)
  | .SUITE_SPARSE => some (.SuiteSparseCholesky, .FloatSuiteSparseCholesky)
  | .EIGEN_SPARSE => some (.EigenSparseCholesky, .FloatEigenSparseCholesky)
  | .CX_SPARSE => some (.CXSparseCholesky, .FloatCXSparseCholesky)
  | .ACCELERATE_SPARSE =>
    some (.AppleAccelerateCholeskyDouble, .AppleAccelerateCholeskyFloat)
  | .NO_SPARSE => none

/-- The backend instance held by a created solver, wrapped or not. -/
def CreatedSolver.backend : CreatedSolver → BackendInstance
  | .plain b => b
  | .refined b _ => b

/-- The ordering policy a created solver was constructed with. -/
def CreatedSolver.ordering (s : CreatedSolver) : OrderingType :=
  s.backend.ordering

/-- A concrete collaborator backend over Nat states whose Factorize always
fails, used to exhibit counterexamples. -/
def failingBackend : SolverOps Nat Nat Nat Nat where
  factorize st _ :=
    { state := st + 1, status := .LINEAR_SOLVER_FAILURE, message := "fail" }
  solve st _ s :=
    { state := st, solution := s + 1, status := .LINEAR_SOLVER_SUCCESS,
      message := "ok" }

/-- A concrete refiner collaborator over Nat states, used in witnesses. -/
def natRefiner : RefinerOps Nat Nat Nat Nat Nat where
  refine r _ _ sv sol := (r, sv, sol + 10)

end Ceres

namespace Ceres

open LinearSolverTerminationType

/-- Claim C1: FactorAndSolve first calls Factorize once; if and only if
Factorize returns Success it then calls Solve (exactly once) and returns the
Solve result, otherwise it returns the Factorize status without ever
invoking Solve.  Stated on an instrumented backend so that the number of
Factorize and Solve invocations is part of the conclusion. -/
theorem factorAndSolve_shortCircuit (σ M R S : Type) (ops : SolverOps σ M R S)
    (st : σ) (lhs : M) (rhs : R) (solution : S) :
    let fr := ops.factorize st lhs
    let res := SparseCholesky.FactorAndSolve (instrument ops)
      { base := st, factorizeCalls := 0, solveCalls := 0 } lhs rhs solution
    res.state.factorizeCalls = 1 ∧
    (if fr.status = LINEAR_SOLVER_SUCCESS then
      res.state.solveCalls = 1 ∧
      res = { state := { base := (ops.solve fr.state rhs solution).state,
                         factorizeCalls := 1, solveCalls := 1 },
              solution := (ops.solve fr.state rhs solution).solution,
              status := (ops.solve fr.state rhs solution).status,
              message := (ops.solve fr.state rhs solution).message }
    else
      res.state.solveCalls = 0 ∧
      res = { state := { base := fr.state, factorizeCalls := 1,
                         solveCalls := 0 },
              solution := solution, status := fr.status,
              message := fr.message }) := by
  simp only [SparseCholesky.FactorAndSolve, instrument]
  by_cases h : (ops.factorize st lhs).status = LINEAR_SOLVER_SUCCESS <;>
    simp [h]

/-- Claim C2: RefinedSparseCholesky::Solve (on a state whose recorded matrix
is non-null) delegates to the wrapped Solve; on any non-Success status it
returns that status at once with the refiner never invoked (call count 0);
on Success it invokes the refiner exactly once, on the recorded matrix, the
rhs, the wrapped backend state left by the solve, and the solution the
backend wrote, and then returns Success unconditionally, whatever the
refiner did. -/
theorem refinedSolve_delegation (σ ρ M R S : Type) (ops : SolverOps σ M R S)
    (rops : RefinerOps ρ M R S σ) (b : σ) (r0 : ρ) (m : M) (rhs : R)
    (sol : S) :
    let self : RefinedSparseCholesky σ (ρ × Nat) M :=
      { sparse_cholesky := b, iterative_refiner := (r0, 0), lhs := some m }
    let sr := ops.solve b rhs sol
    let res := RefinedSparseCholesky.Solve ops (instrumentRefiner rops) self
      rhs sol
    if sr.status = LINEAR_SOLVER_SUCCESS then
      let q := rops.refine r0 m rhs sr.state sr.solution
      res = some ({ sparse_cholesky := q.2.1, iterative_refiner := (q.1, 1),
                    lhs := some m },
        q.2.2, LINEAR_SOLVER_SUCCESS, sr.message)
    else
      res = some ({ sparse_cholesky := sr.state, iterative_refiner := (r0, 0),
                    lhs := some m },
        sr.solution, sr.status, sr.message) := by
  simp only [RefinedSparseCholesky.Solve, instrumentRefiner]
  by_cases h : (ops.solve b rhs sol).status = LINEAR_SOLVER_SUCCESS <;>
    simp [h]

/-- Claim C3, counterexample: a RefinedSparseCholesky on which the only
Factorize call returned Failure (so no Factorize ever returned Success)
does not fatally assert in Solve: the Factorize rebound the matrix pointer,
the null check passes, and Solve proceeds to delegate. -/
theorem refinedSolve_after_failed_factorize :
    (RefinedSparseCholesky.Factorize failingBackend
      ({ sparse_cholesky := 0, iterative_refiner := 0, lhs := none } :
        RefinedSparseCholesky Nat Nat Nat) 7).2.1 =
      LINEAR_SOLVER_FAILURE ∧
    (RefinedSparseCholesky.Solve failingBackend natRefiner
      (RefinedSparseCholesky.Factorize failingBackend
        ({ sparse_cholesky := 0, iterative_refiner := 0, lhs := none } :
          RefinedSparseCholesky Nat Nat Nat) 7).1 5 3).isSome = true :=
  ⟨rfl, rfl⟩

/-- Claim C3, amended: Solve fatally asserts exactly when the recorded
matrix pointer is still null, i.e. when no Factorize call at all has been
made on the instance; after any Factorize call, successful or not, the
pointer is non-null and Solve does not assert. -/
theorem refinedSolve_asserts_iff_no_factorize (σ ρ M R S : Type)
    (ops : SolverOps σ M R S) (rops : RefinerOps ρ M R S σ)
    (self : RefinedSparseCholesky σ ρ M) (rhs : R) (sol : S) :
    RefinedSparseCholesky.Solve ops rops self rhs sol = none ↔
      self.lhs = none := by
  cases h : self.lhs
  · simp [RefinedSparseCholesky.Solve, h]
  · simp only [RefinedSparseCholesky.Solve, h]
    split <;> simp

/-- Claim C6: RefinedSparseCholesky::Factorize is fully characterized by:
it rebinds the recorded matrix pointer to its argument, delegates to the
wrapped Factorize on the same backend state and matrix, returns its status
and message verbatim, and changes nothing else (the refiner is untouched). -/
theorem refinedFactorize_records_and_delegates (σ ρ M R S : Type)
    (ops : SolverOps σ M R S) (self : RefinedSparseCholesky σ ρ M) (lhs : M) :
    RefinedSparseCholesky.Factorize (R := R) (S := S) ops self lhs =
      ({ sparse_cholesky := (ops.factorize self.sparse_cholesky lhs).state,
         iterative_refiner := self.iterative_refiner, lhs := some lhs },
       (ops.factorize self.sparse_cholesky lhs).status,
       (ops.factorize self.sparse_cholesky lhs).message) := rfl

/-- Claim C10: Factorize rebinds the recorded matrix pointer
unconditionally, whatever status the wrapped Factorize returns, so after
any Factorize call the pointer equals that call's argument, is non-null,
and a subsequent Solve passes the null check (returns a value instead of
fatally asserting). -/
theorem refinedFactorize_rebinds_unconditionally (σ ρ M R S : Type)
    (ops : SolverOps σ M R S) (rops : RefinerOps ρ M R S σ)
    (self : RefinedSparseCholesky σ ρ M) (lhs : M) (rhs : R) (sol : S) :
    (RefinedSparseCholesky.Factorize (R := R) (S := S) ops self lhs).1.lhs
        = some lhs ∧
    (RefinedSparseCholesky.Solve ops rops
      (RefinedSparseCholesky.Factorize (R := R) (S := S) ops self lhs).1
      rhs sol).isSome = true := by
  refine ⟨rfl, ?_⟩
  simp only [RefinedSparseCholesky.Solve, RefinedSparseCholesky.Factorize]
  split <;> simp

/-- Claim C9: wrapping a backend in the refined decorator with a
zero-iteration-bound refiner is observationally a no-op on any input where
the backend Solve succeeds: the decorator returns Success and the solution
buffer holds exactly the values the unwrapped backend wrote. -/
theorem refined_zero_iteration_noop (σ M R S : Type) (ops : SolverOps σ M R S)
    (b : σ) (m : M) (rhs : R) (sol : S) (chosen : Nat)
    (pass : M → R → σ → S → S)
    (hs : (ops.solve b rhs sol).status = LINEAR_SOLVER_SUCCESS) :
    RefinedSparseCholesky.Solve ops (IterativeRefiner.ops M R S σ)
      { sparse_cholesky := b,
        iterative_refiner :=
          { max_num_iterations := 0, chosen_passes := chosen, pass := pass },
        lhs := some m } rhs sol =
      some ({ sparse_cholesky := (ops.solve b rhs sol).state,
              iterative_refiner :=
                { max_num_iterations := 0, chosen_passes := chosen,
                  pass := pass },
              lhs := some m },
            (ops.solve b rhs sol).solution, LINEAR_SOLVER_SUCCESS,
            (ops.solve b rhs sol).message) := by
  simp [RefinedSparseCholesky.Solve, IterativeRefiner.ops,
    IterativeRefiner.Refine, hs]

/-- Witness for claim C9 at a concrete backend, refiner and input. -/
theorem refined_zero_iteration_noop_witness :
    (failingBackend.solve 0 5 3).status = LINEAR_SOLVER_SUCCESS ∧
    RefinedSparseCholesky.Solve failingBackend
      (IterativeRefiner.ops Nat Nat Nat Nat)
      { sparse_cholesky := 0,
        iterative_refiner :=
          { max_num_iterations := 0, chosen_passes := 9,
            pass := fun _ _ _ s => s + 100 },
        lhs := some 7 } 5 3 =
      some ({ sparse_cholesky := (failingBackend.solve 0 5 3).state,
              iterative_refiner :=
                { max_num_iterations := 0, chosen_passes := 9,
                  pass := fun _ _ _ s => s + 100 },
              lhs := some 7 },
            (failingBackend.solve 0 5 3).solution, LINEAR_SOLVER_SUCCESS,
            (failingBackend.solve 0 5 3).message) :=
  ⟨rfl, refined_zero_iteration_noop Nat Nat Nat Nat failingBackend 0 7 5 3 9
    (fun _ _ _ s => s + 100) rfl⟩

/-- Case analysis of SparseCholesky::Create shared by the factory claims:
either the requested library is not compiled in (or unrecognized) and the
factory aborts with a fatal error, or it is compiled in and the factory
returns the variant of that library selected by the mixed-precision flag,
constructed with the ordering policy derived from the postordering flag,
wrapped in a refined decorator exactly when the refinement iteration count
is positive. -/
theorem create_cases (build : BuildConfig) (options : Options) :
    (build.compiled options.sparse_linear_algebra_library_type = false ∧
      ∃ msg : String,
        SparseCholesky.Create build options = Except.error msg) ∨
    (build.compiled options.sparse_linear_algebra_library_type = true ∧
      ∃ std red : BackendKind,
        libraryVariants options.sparse_linear_algebra_library_type
          = some (std, red) ∧
        SparseCholesky.Create build options = Except.ok
          (if options.max_num_refinement_iterations > 0 then
            CreatedSolver.refined
              { kind :=
                  if options.use_mixed_precision_solves then red else std,
                ordering :=
                  if options.use_postordering then .AMD else .NATURAL }
              options.max_num_refinement_iterations
          else
            CreatedSolver.plain
              { kind :=
                  if options.use_mixed_precision_solves then red else std,
                ordering :=
                  if options.use_postordering then .AMD else .NATURAL })) := by
  obtain ⟨ns, ue, nc, na⟩ := build
  obtain ⟨lib, post, mixed, iters⟩ := options
  by_cases hi : (0 : Int) < iters <;>
    cases lib <;> cases ns <;> cases ue <;> cases nc <;> cases na <;>
      cases mixed <;>
      simp [SparseCholesky.Create, BuildConfig.compiled, libraryVariants, hi]

/-- Claim C4: whenever the requested sparse linear algebra library is
unrecognized or was not compiled into the build, SparseCholesky::Create
aborts with a fatal error at the selection switch: no solver value of any
kind is produced, so nothing is substituted and nothing partially
constructed escapes. -/
theorem create_fatal_on_uncompiled (build : BuildConfig) (options : Options)
    (h : build.compiled options.sparse_linear_algebra_library_type = false) :
    ∃ msg : String, SparseCholesky.Create build options = Except.error msg := by
  rcases create_cases build options with ⟨_, hm⟩ | ⟨hc, _⟩
  · exact hm
  · rw [h] at hc
    cases hc

/-- Witness for claim C4 on a build without SuiteSparse support asked for
SUITE_SPARSE. -/
theorem create_fatal_on_uncompiled_witness :
    BuildConfig.compiled
        { no_suitesparse := true, use_eigen_sparse := true,
          no_cxsparse := false, no_accelerate_sparse := false }
        SparseLinearAlgebraLibraryType.SUITE_SPARSE = false ∧
    ∃ msg : String,
      SparseCholesky.Create
        { no_suitesparse := true, use_eigen_sparse := true,
          no_cxsparse := false, no_accelerate_sparse := false }
        { sparse_linear_algebra_library_type := .SUITE_SPARSE,
          use_postordering := true, use_mixed_precision_solves := false,
          max_num_refinement_iterations := 2 } = Except.error msg :=
  ⟨rfl, create_fatal_on_uncompiled _ _ rfl⟩

/-- Claim C5: for a recognized, compiled-in library, Create returns the
selected backend wrapped in a refined decorator whose refiner bound is
max_num_refinement_iterations exactly when that count is positive, and the
bare backend otherwise. -/
theorem create_wraps_iff_refinement_positive (build : BuildConfig)
    (options : Options)
    (h : build.compiled options.sparse_linear_algebra_library_type = true) :
    ∃ b : BackendInstance,
      SparseCholesky.Create build options = Except.ok
        (if options.max_num_refinement_iterations > 0 then
          CreatedSolver.refined b options.max_num_refinement_iterations
        else
          CreatedSolver.plain b) := by
  rcases create_cases build options with ⟨hc, _⟩ | ⟨_, _, _, _, hok⟩
  · rw [h] at hc
    cases hc
  · exact ⟨_, hok⟩

/-- Witness for claim C5: with a positive iteration count the result is
wrapped, and the wrapped form is what the theorem describes. -/
theorem create_wraps_iff_refinement_positive_witness :
    BuildConfig.compiled
        { no_suitesparse := false, use_eigen_sparse := true,
          no_cxsparse := false, no_accelerate_sparse := false }
        SparseLinearAlgebraLibraryType.EIGEN_SPARSE = true ∧
    ∃ b : BackendInstance,
      SparseCholesky.Create
        { no_suitesparse := false, use_eigen_sparse := true,
          no_cxsparse := false, no_accelerate_sparse := false }
        { sparse_linear_algebra_library_type := .EIGEN_SPARSE,
          use_postordering := false, use_mixed_precision_solves := false,
          max_num_refinement_iterations := 3 } = Except.ok
        (if (3 : Int) > 0 then CreatedSolver.refined b 3
         else CreatedSolver.plain b) :=
  ⟨rfl, create_wraps_iff_refinement_positive _ _ rfl⟩

/-- Claim C7: the ordering policy of every solver Create returns is AMD
when use_postordering is true and NATURAL when it is false, for every build
configuration and every value of the other option fields; it is therefore
a pure two-valued function of the postordering flag alone, with no failure
mode on any successful creation. -/
theorem create_ordering_policy (build : BuildConfig) (options : Options)
    (s : CreatedSolver) (h : SparseCholesky.Create build options = Except.ok s) :
    s.ordering =
      (if options.use_postordering then OrderingType.AMD
       else OrderingType.NATURAL) := by
  rcases create_cases build options with ⟨_, msg, herr⟩ | ⟨_, _, _, _, hok⟩
  · rw [herr] at h
    cases h
  · rw [hok] at h
    have hs := Except.ok.inj h
    subst hs
    by_cases hi : options.max_num_refinement_iterations > 0 <;>
      simp [hi, CreatedSolver.ordering, CreatedSolver.backend]

/-- Witness for claim C7 at a concrete successful configuration. -/
theorem create_ordering_policy_witness :
    SparseCholesky.Create
        { no_suitesparse := false, use_eigen_sparse := false,
          no_cxsparse := false, no_accelerate_sparse := false }
        { sparse_linear_algebra_library_type := .SUITE_SPARSE,
          use_postordering := true, use_mixed_precision_solves := false,
          max_num_refinement_iterations := 0 } =
      Except.ok (CreatedSolver.plain
        { kind := .SuiteSparseCholesky, ordering := .AMD }) ∧
    (CreatedSolver.plain
        { kind := .SuiteSparseCholesky, ordering := .AMD }).ordering =
      (if true then OrderingType.AMD else OrderingType.NATURAL) :=
  ⟨rfl, create_ordering_policy
    { no_suitesparse := false, use_eigen_sparse := false,
      no_cxsparse := false, no_accelerate_sparse := false }
    { sparse_linear_algebra_library_type := .SUITE_SPARSE,
      use_postordering := true, use_mixed_precision_solves := false,
      max_num_refinement_iterations := 0 }
    (CreatedSolver.plain { kind := .SuiteSparseCholesky, ordering := .AMD })
    rfl⟩

/-- Claim C8: for every compiled-in library choice the constructed backend
is exactly one of the two variants of that library, the reduced-precision
one when use_mixed_precision_solves is true and the standard one when it is
false, and it is constructed with the computed ordering policy. -/
theorem create_selects_precision_variant (build : BuildConfig)
    (options : Options)
    (h : build.compiled options.sparse_linear_algebra_library_type = true) :
    ∃ std red : BackendKind,
      libraryVariants options.sparse_linear_algebra_library_type
        = some (std, red) ∧
      ∃ s : CreatedSolver,
        SparseCholesky.Create build options = Except.ok s ∧
        s.backend =
          { kind := if options.use_mixed_precision_solves then red else std,
            ordering :=
              if options.use_postordering then OrderingType.AMD
              else OrderingType.NATURAL } := by
  rcases create_cases build options with ⟨hc, _⟩ | ⟨_, std, red, hvar, hok⟩
  · rw [h] at hc
    cases hc
  · refine ⟨std, red, hvar, _, hok, ?_⟩
    by_cases hi : options.max_num_refinement_iterations > 0 <;>
      simp [hi, CreatedSolver.backend]

/-- Witness for claim C8 on a mixed-precision CX_SPARSE configuration. -/
theorem create_selects_precision_variant_witness :
    BuildConfig.compiled
        { no_suitesparse := true, use_eigen_sparse := false,
          no_cxsparse := false, no_accelerate_sparse := true }
        SparseLinearAlgebraLibraryType.CX_SPARSE = true ∧
    ∃ std red : BackendKind,
      libraryVariants SparseLinearAlgebraLibraryType.CX_SPARSE
        = some (std, red) ∧
      ∃ s : CreatedSolver,
        SparseCholesky.Create
          { no_suitesparse := true, use_eigen_sparse := false,
            no_cxsparse := false, no_accelerate_sparse := true }
          { sparse_linear_algebra_library_type := .CX_SPARSE,
            use_postordering := false, use_mixed_precision_solves := true,
            max_num_refinement_iterations := 0 } = Except.ok s ∧
        s.backend =
          { kind := if true then red else std,
            ordering :=
              if false then OrderingType.AMD else OrderingType.NATURAL } :=
  ⟨rfl, create_selects_precision_variant
    { no_suitesparse := true, use_eigen_sparse := false,
      no_cxsparse := false, no_accelerate_sparse := true }
    { sparse_linear_algebra_library_type := .CX_SPARSE,
      use_postordering := false, use_mixed_precision_solves := true,
      max_num_refinement_iterations := 0 }
    rfl⟩

end Ceres
